import Mathlib

/-!
Verification of the class-scan attendance service (src/app.py).

The service's own logic is: decode an image, run an external face encoder,
then match each detected face embedding against a roster of stored
embeddings, marking a student present when the Euclidean distance is within
the fixed tolerance 0.6.  Embeddings are modelled as lists of rationals;
the external decode + face-extraction pipeline (base64 decode, PIL, the
face_recognition library) is modelled as an `Except`-valued function
parameter, a Python exception being an `Except.error` carrying `str(e)`.
-/

namespace ClassScan

/-- A roster entry as sent to /process-attendance: dict with keys
`id`, `name`, `encodings`.  `encodings` may be missing/null (`none`)
or a list of floats.  Mirrors `students_data` items in app.py. -/
structure Student where
  id : String
  name : String
  encodings : Option (List ℚ)
deriving Repr, DecidableEq

/-- A per-student verdict: dict with keys `id`, `name`, `isAbsent`,
as built in app.py lines 160-166. -/
structure MatchResult where
  id : String
  name : String
  isAbsent : Bool
deriving Repr, DecidableEq

/-- Python truthiness of `student.get('encodings')` (app.py line 179):
missing/None and the empty list are falsy, a non-empty list is truthy. -/
def hasEncoding : Option (List ℚ) → Bool
  | none => false
  | some l => !l.isEmpty

/-- The stored encoding as used after the truthiness check
(`np.array(student['encodings'])`, app.py line 184). -/
def storedEncoding (s : Student) : List ℚ := s.encodings.getD []

/-- Squared Euclidean distance between two embedding vectors, componentwise
over the common prefix (genuine embeddings share the encoder's fixed
length).  `face_recognition.face_distance` is
`np.linalg.norm(a - b)`, i.e. the square root of this sum. -/
def sqDist (a b : List ℚ) : ℚ :=
  (List.zipWith (fun x y => (x - y) ^ 2) a b).sum

/-- The fixed matching tolerance passed to `compare_faces` (app.py line 190). -/
def tolerance : ℚ := 6 / 10

/-- `face_recognition.compare_faces([stored], face, tolerance=0.6)[0]`:
true iff the Euclidean distance is at most the tolerance.  Squaring both
sides keeps the test rational and decidable; `compare_faces_iff_dist`
below relates it to the real Euclidean distance. -/
def compare_faces (stored face : List ℚ) : Bool :=
  decide (sqDist stored face ≤ tolerance ^ 2)

/-- Real Euclidean distance between two embeddings. -/
noncomputable def euclidDist (a b : List ℚ) : ℝ :=
  Real.sqrt ((sqDist a b : ℚ) : ℝ)

/-- One pass of the inner loop of app.py lines 178-195 for a single
detected face: every roster entry with a truthy stored encoding that
matches the face gets `isAbsent` set to false; others are unchanged. -/
def markMatches (face : List ℚ) (students_data : List Student)
    (results : List MatchResult) : List MatchResult :=
  List.zipWith
    (fun s r =>
      if hasEncoding s.encodings && compare_faces (storedEncoding s) face then
        { r with isAbsent := false }
      else r)
    students_data results

/-- The matcher core shared by `process_class_image` (app.py lines 97-129)
and `process_class_image_from_base64` (lines 159-198): initialise every
student as absent, return immediately when no face was detected, otherwise
run the double loop over detected faces and roster entries. -/
def matchFaces (class_encodings : List (List ℚ)) (students_data : List Student) :
    List MatchResult :=
  let results := students_data.map (fun s => ⟨s.id, s.name, true⟩)
  if class_encodings.isEmpty then results
  else class_encodings.foldl (fun res face => markMatches face students_data res) results

/-- `process_class_image_from_base64` (app.py lines 135-204): decode the
base64 class image and extract face embeddings (the external pipeline),
then match; any exception in the pipeline is re-raised (`raise` at line 204). -/
def process_class_image_from_base64
    (pipeline : String → Except String (List (List ℚ)))
    (image_data : String) (students_data : List Student) :
    Except String (List MatchResult) :=
  match pipeline image_data with
  | .error e => .error e
  | .ok class_encodings => .ok (matchFaces class_encodings students_data)

/-- `process_student_image_from_base64` (app.py lines 59-79): run the
external decode + `face_encodings` pipeline; ANY exception is caught and
turned into `None` (lines 77-79), as is an empty encoding list (lines
73-74); otherwise the first encoding is returned (line 76). -/
def process_student_image_from_base64
    (pipeline : String → Except String (List (List ℚ)))
    (image_data : String) : Option (List ℚ) :=
  match pipeline image_data with
  | .error _ => none
  | .ok encodings => encodings.head?

/-- The JSON envelope + HTTP status produced by the handlers.  Fields the
handler does not put in the body are `none`. -/
structure Response where
  status : Nat
  success : Option Bool
  error : Option String
  results : Option (List MatchResult)
  encodings : Option (List ℚ)
deriving Repr, DecidableEq

/-- Python truthiness of an optional string field from `data.get(...)`:
missing/None and the empty string are falsy. -/
def truthyStr : Option String → Bool
  | none => false
  | some s => !s.isEmpty

/-- Body of a POST /process-attendance request: `classImageData` optional
string, `students` list (`data.get('students', [])` defaults a missing
field to the empty list). -/
structure AttendanceRequest where
  classImageData : Option String
  students : List Student
deriving Repr

/-- The /process-attendance handler (app.py lines 253-312): 400 on falsy
`classImageData`, 400 on falsy `students`, otherwise run the matcher; an
exception escaping it becomes a 500 with `success: false` and the
exception text. -/
def process_attendance (pipeline : String → Except String (List (List ℚ)))
    (req : AttendanceRequest) : Response :=
  if !truthyStr req.classImageData then
    ⟨400, some false, some "Missing classImageData", none, none⟩
  else if req.students.isEmpty then
    ⟨400, some false, some "Missing students data", none, none⟩
  else
    match process_class_image_from_base64 pipeline (req.classImageData.getD "")
        req.students with
    | .error e => ⟨500, some false, some e, none, none⟩
    | .ok results => ⟨200, some true, none, some results, none⟩

/-- Body of a POST /encode-student request. -/
structure EncodeRequest where
  imageData : Option String
deriving Repr

/-- The /encode-student handler (app.py lines 211-251): 400 on falsy
`imageData` (no `success` field in that body), 400 "No face detected in
image" when `process_student_image_from_base64` returns None, otherwise
200 with the encoding. -/
def encode_student (pipeline : String → Except String (List (List ℚ)))
    (req : EncodeRequest) : Response :=
  if !truthyStr req.imageData then
    ⟨400, none, some "Missing imageData", none, none⟩
  else
    match process_student_image_from_base64 pipeline (req.imageData.getD "") with
    | none => ⟨400, some false, some "No face detected in image", none, none⟩
    | some enc => ⟨200, some true, none, none, some enc⟩

/-- The test the inner loop applies to one roster entry and one detected
face: truthy stored encoding and a comparison within tolerance. -/
def studentMatch (s : Student) (face : List ℚ) : Bool :=
  hasEncoding s.encodings && compare_faces (storedEncoding s) face

lemma sqDist_nonneg (a b : List ℚ) : 0 ≤ sqDist a b := by
  induction a generalizing b with
  | nil => simp [sqDist]
  | cons x xs ih =>
    cases b with
    | nil => simp [sqDist]
    | cons y ys =>
      have h := ih ys
      simp only [sqDist, List.zipWith_cons_cons, List.sum_cons] at h ⊢
      exact add_nonneg (sq_nonneg _) h

/-- The rational comparison implements the real Euclidean-distance test:
`compare_faces` answers true exactly when the Euclidean distance between
the two embeddings is at most the tolerance 0.6. -/
lemma compare_faces_iff_dist (s f : List ℚ) :
    compare_faces s f = true ↔ euclidDist s f ≤ ((tolerance : ℚ) : ℝ) := by
  have htol : (0 : ℝ) ≤ ((tolerance : ℚ) : ℝ) := by
    rw [tolerance]; push_cast; norm_num
  rw [compare_faces, euclidDist, decide_eq_true_iff,
    Real.sqrt_le_left htol]
  constructor
  · intro h; exact_mod_cast h
  · intro h; exact_mod_cast h

lemma markMatches_eq_zipWith (face : List ℚ) (students : List Student)
    (results : List MatchResult) :
    markMatches face students results =
      List.zipWith
        (fun s r => if studentMatch s face then { r with isAbsent := false } else r)
        students results := rfl

lemma length_markMatches (face : List ℚ) (students : List Student)
    (results : List MatchResult) (h : results.length = students.length) :
    (markMatches face students results).length = students.length := by
  simp [markMatches, h]

lemma zipWith_self_right (students : List Student) (results : List MatchResult)
    (h : results.length = students.length) :
    List.zipWith (fun _ r => r) students results = results := by
  induction students generalizing results with
  | nil =>
    cases results with
    | nil => rfl
    | cons r rs => simp at h
  | cons s ss ih =>
    cases results with
    | nil => simp at h
    | cons r rs =>
      simp only [List.length_cons, Nat.succ.injEq] at h
      simp [ih rs h]

lemma zipWith_zipWith_self {α β γ δ : Type} (f : α → γ → δ) (g : α → β → γ)
    (as : List α) (bs : List β) :
    List.zipWith f as (List.zipWith g as bs) =
      List.zipWith (fun a b => f a (g a b)) as bs := by
  induction as generalizing bs with
  | nil => simp
  | cons a as ih => cases bs <;> simp [ih]

lemma zipWith_map_self {α β γ : Type} (f : α → β → γ) (g : α → β)
    (as : List α) :
    List.zipWith f as (as.map g) = as.map fun a => f a (g a) := by
  induction as with
  | nil => rfl
  | cons a as ih => simp [ih]

lemma foldl_markMatches (faces : List (List ℚ)) (students : List Student)
    (results : List MatchResult) (h : results.length = students.length) :
    faces.foldl (fun res face => markMatches face students res) results =
      List.zipWith
        (fun s r =>
          ⟨r.id, r.name, r.isAbsent && !(faces.any fun f => studentMatch s f)⟩)
        students results := by
  induction faces generalizing results with
  | nil =>
    simp only [List.foldl_nil, List.any_nil, Bool.not_false, Bool.and_true]
    exact (zipWith_self_right students results h).symm
  | cons f fs ih =>
    rw [List.foldl_cons, ih _ (length_markMatches f students results h),
      markMatches_eq_zipWith, zipWith_zipWith_self]
    congr 1
    funext s r
    cases hm : studentMatch s f <;> simp [hm]

/-- Functional characterization of the matcher: each roster entry keeps its
id and name and is absent unless some detected face passes the comparison
test against its stored encoding. -/
lemma matchFaces_eq (faces : List (List ℚ)) (students : List Student) :
    matchFaces faces students =
      students.map fun s =>
        ⟨s.id, s.name, !(faces.any fun f => studentMatch s f)⟩ := by
  cases faces with
  | nil => simp [matchFaces]
  | cons f fs =>
    rw [matchFaces]
    simp only [List.isEmpty_cons, Bool.false_eq_true, if_false]
    rw [foldl_markMatches _ _ _ (by simp), zipWith_map_self]
    simp

lemma length_matchFaces (faces : List (List ℚ)) (students : List Student) :
    (matchFaces faces students).length = students.length := by
  simp [matchFaces_eq]

lemma any_congr_perm {α : Type} {l₁ l₂ : List α} (h : l₁.Perm l₂) (p : α → Bool) :
    l₁.any p = l₂.any p := by
  cases h₁ : l₁.any p with
  | false =>
    cases h₂ : l₂.any p with
    | false => rfl
    | true =>
      rw [List.any_eq_true] at h₂
      obtain ⟨x, hx, hpx⟩ := h₂
      rw [List.any_eq_false] at h₁
      exact absurd hpx (by simpa using h₁ x (h.mem_iff.mpr hx))
  | true =>
    cases h₂ : l₂.any p with
    | true => rfl
    | false =>
      rw [List.any_eq_true] at h₁
      obtain ⟨x, hx, hpx⟩ := h₁
      rw [List.any_eq_false] at h₂
      exact absurd hpx (by simpa using h₂ x (h.mem_iff.mp hx))

/-- C1: a roster entry ends with isAbsent = false exactly when it has a
non-empty stored embedding and some detected face is within Euclidean
distance 0.6 of it; otherwise it keeps its initial isAbsent = true. -/
theorem matcher_present_iff_close_face (faces : List (List ℚ))
    (students : List Student) (i : Nat) (hi : i < students.length) :
    ((matchFaces faces students).get
        ⟨i, by rw [length_matchFaces]; exact hi⟩).isAbsent = false ↔
      hasEncoding (students.get ⟨i, hi⟩).encodings = true ∧
        ∃ f ∈ faces,
          euclidDist (storedEncoding (students.get ⟨i, hi⟩)) f ≤
            ((tolerance : ℚ) : ℝ) := by
  simp only [matchFaces_eq, List.get_eq_getElem, List.getElem_map]
  have hbool : ∀ b : Bool, ((!b) = false ↔ b = true) := by decide
  rw [hbool, List.any_eq_true]
  constructor
  · rintro ⟨f, hf, hm⟩
    rw [studentMatch, Bool.and_eq_true, compare_faces_iff_dist] at hm
    exact ⟨hm.1, f, hf, hm.2⟩
  · rintro ⟨henc, f, hf, hd⟩
    refine ⟨f, hf, ?_⟩
    rw [studentMatch, Bool.and_eq_true, compare_faces_iff_dist]
    exact ⟨henc, hd⟩

/-- C1 witness: a one-student roster with stored embedding [0] and one
detected face [0] (distance 0) is marked present. -/
theorem matcher_present_iff_close_face_witness :
    (0 : Nat) < 1 ∧
      (((matchFaces [[0]] [⟨"s1", "Alice", some [0]⟩]).get
          ⟨0, by rw [length_matchFaces]; norm_num⟩).isAbsent = false ↔
        hasEncoding (([⟨"s1", "Alice", some [0]⟩] :
            List Student).get ⟨0, by norm_num⟩).encodings = true ∧
          ∃ f ∈ [[(0 : ℚ)]],
            euclidDist (storedEncoding (([⟨"s1", "Alice", some [0]⟩] :
              List Student).get ⟨0, by norm_num⟩)) f ≤ ((tolerance : ℚ) : ℝ)) :=
  ⟨by norm_num,
    matcher_present_iff_close_face [[0]] [⟨"s1", "Alice", some [0]⟩] 0 (by norm_num)⟩

/-- C2: the result has exactly one entry per roster entry, in order, with
the same id and name. -/
theorem matcher_preserves_roster_shape (faces : List (List ℚ))
    (students : List Student) :
    (matchFaces faces students).length = students.length ∧
      ∀ i : Nat,
        (matchFaces faces students)[i]?.map MatchResult.id =
            students[i]?.map Student.id ∧
          (matchFaces faces students)[i]?.map MatchResult.name =
            students[i]?.map Student.name := by
  refine ⟨length_matchFaces faces students, fun i => ?_⟩
  rw [matchFaces_eq]
  cases h : students[i]? <;> simp [List.getElem?_map, h]

/-- C3: with no detected faces the matcher returns the initial all-absent
list (one entry per student, isAbsent = true everywhere), via the early
return that skips the comparison loop. -/
theorem matcher_no_faces_all_absent (students : List Student) :
    matchFaces [] students =
        students.map (fun s => ⟨s.id, s.name, true⟩) ∧
      ∀ r ∈ matchFaces [] students, r.isAbsent = true := by
  constructor
  · simp [matchFaces]
  · intro r hr
    rw [matchFaces_eq] at hr
    simp only [List.any_nil, Bool.not_false, List.mem_map] at hr
    obtain ⟨s, _, rfl⟩ := hr
    rfl

/-- C4: a roster entry whose stored embedding is absent (encodings = none)
is marked absent no matter which faces were detected. -/
theorem matcher_missing_encoding_absent (faces : List (List ℚ))
    (students : List Student) (i : Nat) (hi : i < students.length)
    (h : (students.get ⟨i, hi⟩).encodings = none) :
    ((matchFaces faces students).get
        ⟨i, by rw [length_matchFaces]; exact hi⟩).isAbsent = true := by
  simp only [List.get_eq_getElem] at h
  simp [matchFaces_eq, studentMatch, h, hasEncoding]

/-- C4 witness: a student with no stored embedding stays absent even though
a detected face exists. -/
theorem matcher_missing_encoding_absent_witness :
    (0 : Nat) < 1 ∧
      ((matchFaces [[0]] [⟨"s1", "Alice", none⟩]).get
          ⟨0, by rw [length_matchFaces]; norm_num⟩).isAbsent = true :=
  ⟨by norm_num,
    matcher_missing_encoding_absent [[0]] [⟨"s1", "Alice", none⟩] 0 (by norm_num) rfl⟩

/-- C5: a stored/detected pair at Euclidean distance exactly 0.6 passes the
comparison (the test is ≤, not <), and the corresponding roster entry is
marked present. -/
theorem matcher_boundary_distance_matches (stored face : List ℚ)
    (students : List Student) (faces : List (List ℚ)) (i : Nat)
    (hi : i < students.length)
    (hdist : euclidDist stored face = ((tolerance : ℚ) : ℝ))
    (henc : (students.get ⟨i, hi⟩).encodings = some stored)
    (hne : stored ≠ []) (hf : face ∈ faces) :
    compare_faces stored face = true ∧
      ((matchFaces faces students).get
        ⟨i, by rw [length_matchFaces]; exact hi⟩).isAbsent = false := by
  have hcmp : compare_faces stored face = true :=
    (compare_faces_iff_dist stored face).mpr (le_of_eq hdist)
  refine ⟨hcmp, ?_⟩
  have hsm : studentMatch (students.get ⟨i, hi⟩) face = true := by
    rw [studentMatch]
    simp only [storedEncoding, henc, Option.getD_some, hasEncoding]
    rw [hcmp]
    cases stored with
    | nil => exact absurd rfl hne
    | cons x xs => simp
  have hany : (faces.any fun f => studentMatch (students.get ⟨i, hi⟩) f) = true :=
    List.any_eq_true.mpr ⟨face, hf, hsm⟩
  simp only [matchFaces_eq, List.get_eq_getElem, List.getElem_map]
  simp only [List.get_eq_getElem] at hany
  simp [hany]

/-- C5 witness: stored [0] and detected [3/5] are at distance exactly 0.6
and the single-student roster is marked present. -/
theorem matcher_boundary_distance_matches_witness :
    euclidDist [0] [3 / 5] = ((tolerance : ℚ) : ℝ) ∧
      (compare_faces [0] [3 / 5] = true ∧
        ((matchFaces [[3 / 5]] [⟨"s1", "Alice", some [0]⟩]).get
          ⟨0, by rw [length_matchFaces]; norm_num⟩).isAbsent = false) := by
  have hdist : euclidDist [0] [3 / 5] = ((tolerance : ℚ) : ℝ) := by
    have h1 : sqDist [0] [3 / 5] = 9 / 25 := by norm_num [sqDist]
    rw [euclidDist, h1]
    have h2 : (((9 : ℚ) / 25 : ℚ) : ℝ) = (3 / 5 : ℝ) ^ 2 := by push_cast; norm_num
    rw [h2, Real.sqrt_sq (by norm_num), tolerance]
    push_cast; norm_num
  exact ⟨hdist,
    matcher_boundary_distance_matches [0] [3 / 5] [⟨"s1", "Alice", some [0]⟩]
      [[3 / 5]] 0 (by norm_num) hdist rfl (by norm_num) (by norm_num)⟩

/-- C6: the matcher's output is invariant under any permutation of the
detected face embeddings (presence is an OR over all detected faces). -/
theorem matcher_perm_invariant (students : List Student)
    (faces₁ faces₂ : List (List ℚ)) (h : faces₁.Perm faces₂) :
    matchFaces faces₁ students = matchFaces faces₂ students := by
  rw [matchFaces_eq, matchFaces_eq]
  apply List.map_congr_left
  intro s _
  rw [any_congr_perm h]

/-- C6 witness: swapping two detected faces leaves the result unchanged. -/
theorem matcher_perm_invariant_witness :
    ([[0], [1]] : List (List ℚ)).Perm [[1], [0]] ∧
      matchFaces [[0], [1]] [⟨"s1", "Alice", some [0]⟩] =
        matchFaces [[1], [0]] [⟨"s1", "Alice", some [0]⟩] :=
  ⟨List.Perm.swap [1] [0] [],
    matcher_perm_invariant [⟨"s1", "Alice", some [0]⟩] [[0], [1]] [[1], [0]]
      (List.Perm.swap [1] [0] [])⟩

lemma isEmpty_eq_false_of_ne {s : String} (h : s ≠ "") : s.isEmpty = false := by
  cases hie : s.isEmpty with
  | false => rfl
  | true => exact absurd ((String.isEmpty_iff s).mp hie) h

lemma list_isEmpty_eq_false_of_ne {α : Type} {l : List α} (h : l ≠ []) :
    l.isEmpty = false := by
  cases l with
  | nil => exact absurd rfl h
  | cons x xs => rfl

/-- C7: an error raised while decoding the class image or extracting its
face embeddings propagates out of the matcher, and the /process-attendance
handler turns it into a 500 response with success = false, the error
message verbatim, and no results. -/
theorem attendance_error_propagates_500
    (pipeline : String → Except String (List (List ℚ)))
    (req : AttendanceRequest) (img e : String)
    (h1 : req.classImageData = some img) (h2 : img ≠ "")
    (h3 : req.students ≠ []) (h4 : pipeline img = .error e) :
    process_attendance pipeline req = ⟨500, some false, some e, none, none⟩ := by
  simp [process_attendance, h1, truthyStr, isEmpty_eq_false_of_ne h2,
    list_isEmpty_eq_false_of_ne h3, process_class_image_from_base64, h4]

/-- C7 witness: a concrete failing pipeline yields the 500 envelope with
the verbatim message. -/
theorem attendance_error_propagates_500_witness :
    ((⟨some "img", [⟨"s1", "Alice", none⟩]⟩ :
        AttendanceRequest).classImageData = some "img") ∧
      ("img" : String) ≠ "" ∧
      ((⟨some "img", [⟨"s1", "Alice", none⟩]⟩ :
        AttendanceRequest).students ≠ []) ∧
      ((fun _ => Except.error "decode failed" :
        String → Except String (List (List ℚ))) "img" = .error "decode failed") ∧
      process_attendance (fun _ => Except.error "decode failed")
          ⟨some "img", [⟨"s1", "Alice", none⟩]⟩ =
        ⟨500, some false, some "decode failed", none, none⟩ :=
  ⟨rfl, by decide, by decide, rfl,
    attendance_error_propagates_500 (fun _ => Except.error "decode failed")
      ⟨some "img", [⟨"s1", "Alice", none⟩]⟩ "img" "decode failed"
      rfl (by decide) (by decide) rfl⟩

/-- A pipeline behaving like a base64/image decode failure: it always
raises, carrying the decode error message. -/
def badPipeline : String → Except String (List (List ℚ)) :=
  fun _ => .error "Invalid base64-encoded string"

/-- C8 counterexample: a malformed imageData payload is not reported as a
decode failure: process_student_image_from_base64 swallows the exception
and returns None, so /encode-student answers 400 with the no-face message
instead of the decode error. -/
theorem encode_decode_error_reported_as_no_face :
    encode_student badPipeline ⟨some "not-valid-base64"⟩ =
        ⟨400, some false, some "No face detected in image", none, none⟩ ∧
      (encode_student badPipeline ⟨some "not-valid-base64"⟩).error ≠
        some "Invalid base64-encoded string" := by
  decide

/-- C8 amended: when the decode pipeline raises, the exception is caught
inside process_student_image_from_base64 (which returns None), and the
endpoint reports 400 with success = false and the no-face message; the
decode failure is not distinguished from a no-face result. -/
theorem encode_decode_error_yields_no_face
    (pipeline : String → Except String (List (List ℚ)))
    (req : EncodeRequest) (s e : String)
    (h1 : req.imageData = some s) (h2 : s ≠ "") (h3 : pipeline s = .error e) :
    encode_student pipeline req =
      ⟨400, some false, some "No face detected in image", none, none⟩ := by
  simp [encode_student, h1, truthyStr, isEmpty_eq_false_of_ne h2,
    process_student_image_from_base64, h3]

/-- C8 amended witness: the concrete failing pipeline produces the no-face
400 envelope. -/
theorem encode_decode_error_yields_no_face_witness :
    ((⟨some "xyz"⟩ : EncodeRequest).imageData = some "xyz") ∧
      ("xyz" : String) ≠ "" ∧
      (badPipeline "xyz" = .error "Invalid base64-encoded string") ∧
      encode_student badPipeline ⟨some "xyz"⟩ =
        ⟨400, some false, some "No face detected in image", none, none⟩ :=
  ⟨rfl, by decide, rfl,
    encode_decode_error_yields_no_face badPipeline ⟨some "xyz"⟩ "xyz"
      "Invalid base64-encoded string" rfl (by decide) rfl⟩

/-- C9 counterexample: a request with an empty students list AND a missing
classImageData is answered with Missing classImageData, not with Missing
students data, because the classImageData check runs first. -/
theorem attendance_empty_students_counterexample :
    process_attendance (fun _ => Except.ok []) ⟨none, []⟩ =
        ⟨400, some false, some "Missing classImageData", none, none⟩ ∧
      (process_attendance (fun _ => Except.ok []) ⟨none, []⟩).error ≠
        some "Missing students data" := by
  decide

/-- C9 amended: provided classImageData is present and non-empty, a request
whose students list is empty (including when the field was missing, since
the handler defaults it to the empty list) gets a 400 with error Missing
students data and success = false, whatever the pipeline would do, so the
matcher is never invoked on an empty roster. -/
theorem attendance_empty_students_400
    (pipeline : String → Except String (List (List ℚ)))
    (req : AttendanceRequest) (img : String)
    (h1 : req.classImageData = some img) (h2 : img ≠ "")
    (h3 : req.students = []) :
    process_attendance pipeline req =
      ⟨400, some false, some "Missing students data", none, none⟩ := by
  simp [process_attendance, h1, truthyStr, isEmpty_eq_false_of_ne h2, h3]

/-- C9 amended witness: empty roster with present image data gets the
Missing students data envelope, for an arbitrary concrete pipeline. -/
theorem attendance_empty_students_400_witness :
    ((⟨some "img", []⟩ : AttendanceRequest).classImageData = some "img") ∧
      ("img" : String) ≠ "" ∧
      ((⟨some "img", []⟩ : AttendanceRequest).students = []) ∧
      process_attendance (fun _ => Except.ok [[0]]) ⟨some "img", []⟩ =
        ⟨400, some false, some "Missing students data", none, none⟩ :=
  ⟨rfl, by decide, rfl,
    attendance_empty_students_400 (fun _ => Except.ok [[0]])
      ⟨some "img", []⟩ "img" rfl (by decide) rfl⟩

/-- C10: when the pipeline decodes the image and finds at least one face,
/encode-student returns 200 with exactly the first detected encoding,
discarding the rest. -/
theorem encode_returns_first_face
    (pipeline : String → Except String (List (List ℚ)))
    (req : EncodeRequest) (s : String) (f : List ℚ) (rest : List (List ℚ))
    (h1 : req.imageData = some s) (h2 : s ≠ "")
    (h3 : pipeline s = .ok (f :: rest)) :
    encode_student pipeline req = ⟨200, some true, none, none, some f⟩ := by
  simp [encode_student, h1, truthyStr, isEmpty_eq_false_of_ne h2,
    process_student_image_from_base64, h3]

/-- C10 witness: two detected faces, only the first encoding is returned. -/
theorem encode_returns_first_face_witness :
    ((⟨some "img"⟩ : EncodeRequest).imageData = some "img") ∧
      ("img" : String) ≠ "" ∧
      ((fun _ => Except.ok [[1], [2]] :
        String → Except String (List (List ℚ))) "img" = .ok [[1], [2]]) ∧
      encode_student (fun _ => Except.ok [[1], [2]]) ⟨some "img"⟩ =
        ⟨200, some true, none, none, some [1]⟩ :=
  ⟨rfl, by decide, rfl,
    encode_returns_first_face (fun _ => Except.ok [[1], [2]])
      ⟨some "img"⟩ "img" [1] [[2]] rfl (by decide) rfl⟩

end ClassScan
